import Mathlib

/-!
# Shallow embedding of the UNHVD exchange core (src/unhvd.cpp, src/unhvd.h)

The embedding models the data structures and operations of the library:

* `AVFrame` — the fields of a libav frame that the core reads or writes
  (width, height, pixel-format tag, three plane pointers, three strides).
  A plane pointer is `Option Nat` (`none` = C `NULL`, `some a` = address `a`).
* `hdu_point_cloud` — the working / published point-cloud buffer.  A C array
  is modelled as an allocation identity (`dataId` / `colorsId`, `0` = `NULL`)
  together with its contents as a list; `size` and `used` mirror the two int
  fields.  Point values are triples and colors naturals; `memset(..., 0, ...)`
  writes the zero value.
* `unhvd` — the exchange state: the per-decoder frame slots, the mutex (as a
  `Bool` flag set on acquisition and cleared on release), the unprojector
  presence flag, the working and shared point clouds and the running flag.
  In the C struct the `decoders` int always equals the number of allocated
  frame slots (both are set from `hw_size` in `unhvd_init` and never change),
  so loops `for(i=0;i<decoders;++i)` are modelled as traversals of the slot
  list `frame`.
* The consumer operations `unhvd_get_begin` / `unhvd_get_end` and their
  frame/point-cloud variants, `unhvd_init` (success path of the exchange
  state construction) and `unhvd_close`.
* One iteration of `unhvd_network_decoder_thread`, producing both the next
  state and the ordered list of events (unprojection, lock acquire, per-slot
  reference updates, point-cloud swap, lock release) the C body performs.

The hardware depth unprojector (`hdu_unproject` of the external HDU library)
is not part of this repository; it is modelled from the spec as a bundled
collaborator `UnprojFn`.
-/

namespace Unhvd

/-- `UNHVD_MAX_DECODERS` from unhvd.h. -/
def UNHVD_MAX_DECODERS : Nat := 3

/-- `UNHVD_OK` return value. -/
def UNHVD_OK : Int := 0

/-- `UNHVD_ERROR` return value (also the NO_NEW_DATA signal of `*_get_begin`). -/
def UNHVD_ERROR : Int := -1

/-- The pixel-format tags the core inspects; every other libav format is
`other n`.  `nofmt` is `AV_PIX_FMT_NONE`, the format of a freshly
allocated / unreferenced frame. -/
inductive PixFmt where
  | nofmt
  | p010le
  | p016le
  | rgb0
  | rgba
  | other (n : Nat)
deriving DecidableEq, Repr

/-- The fields of a libav `AVFrame` that src/unhvd.cpp reads or writes:
dimensions, format, the three plane pointers `data[0..2]` and the three
strides `linesize[0..2]`.  `av_frame_ref(dst, src)` makes `dst` share the
same planes, modelled as plain record assignment. -/
structure AVFrame where
  width : Nat
  height : Nat
  format : PixFmt
  data0 : Option Nat
  data1 : Option Nat
  data2 : Option Nat
  linesize0 : Nat
  linesize1 : Nat
  linesize2 : Nat
deriving DecidableEq, Repr

/-- The state of a frame right after `av_frame_alloc` (with `data[0] = NULL`
set by `unhvd_init`) and right after `av_frame_unref`: no planes, no
dimensions, no format. -/
def emptyFrame : AVFrame :=
  { width := 0, height := 0, format := .nofmt,
    data0 := none, data1 := none, data2 := none,
    linesize0 := 0, linesize1 := 0, linesize2 := 0 }

/-- A point value (`float3`); `memset` zero-fill writes `(0, 0, 0)`. -/
abbrev Point := Int × Int × Int

/-- A color value (`color32`); `memset` zero-fill writes `0`. -/
abbrev Color := Nat

/-- `hdu_point_cloud`: the point array and color array (each an allocation
identity plus contents; identity `0` with empty contents is the `NULL`
array of a zero-initialized descriptor), the allocated `size` and the
`used` count. -/
structure hdu_point_cloud where
  dataId : Nat
  colorsId : Nat
  data : List Point
  colors : List Color
  size : Nat
  used : Nat
deriving DecidableEq, Repr

/-- A zero-initialized `hdu_point_cloud` (`point_cloud()` in the `unhvd`
constructor): null arrays, `size = used = 0`. -/
def emptyPC : hdu_point_cloud :=
  { dataId := 0, colorsId := 0, data := [], colors := [], size := 0, used := 0 }

/-- The `hdu_depth` argument built for `hdu_unproject`: depth plane pointer,
optional texture plane pointer, dimensions and the two strides. -/
structure hdu_depth where
  depthData : Option Nat
  textureData : Option Nat
  width : Nat
  height : Nat
  depthLinesize : Nat
  textureLinesize : Nat
deriving DecidableEq, Repr

/-- `memset(l + start, z-bytes, count * sizeof elem)`: overwrite `count`
elements of `l` starting at index `start` with the value `z`. -/
def memsetRange (l : List α) (z : α) (start count : Nat) : List α :=
  l.take start ++ (List.replicate count z ++ l.drop (start + count))

/-- Modelled from the spec: `hdu_unproject` of the external
hardware-depth-unprojector library (hdu.h is not part of this repository).
Per the spec it is pure compute that "writes into a preallocated-or-resized
buffer", filling `used` valid leading slots of the point and color arrays:
it never reallocates (the array identities, the `size` field and the
allocated lengths are preserved) and leaves `used ≤ size`. -/
structure UnprojFn where
  run : hdu_depth → hdu_point_cloud → hdu_point_cloud
  run_dataId : ∀ d pc, (run d pc).dataId = pc.dataId
  run_colorsId : ∀ d pc, (run d pc).colorsId = pc.colorsId
  run_size : ∀ d pc, (run d pc).size = pc.size
  run_data_len : ∀ d pc, (run d pc).data.length = pc.data.length
  run_colors_len : ∀ d pc, (run d pc).colors.length = pc.colors.length
  run_used_le : ∀ d pc, (run d pc).used ≤ pc.size

/-- A concrete unprojector used to evaluate the model on closed inputs: it
writes no point (sets `used := 0`) and touches nothing else. -/
def nullUnproj : UnprojFn where
  run := fun _ pc => { pc with used := 0 }
  run_dataId := fun _ _ => rfl
  run_colorsId := fun _ _ => rfl
  run_size := fun _ _ => rfl
  run_data_len := fun _ _ => rfl
  run_colors_len := fun _ _ => rfl
  run_used_le := fun _ pc => Nat.zero_le pc.size

/-- The `unhvd` exchange state.  `frame` holds the `decoders` allocated
per-stream slots (the C `decoders` int always equals `frame.length`, both
set from `hw_size` at `unhvd_init`); `mutexLocked` models the mutex
(set on `lock`, cleared on `unlock`); `hardware_unprojector` records whether
a depth unprojector was configured (non-NULL `hdu*`). -/
structure unhvd where
  frame : List AVFrame
  mutexLocked : Bool
  hardware_unprojector : Bool
  point_cloud : hdu_point_cloud
  point_cloud_shared : hdu_point_cloud
  keep_working : Bool
deriving DecidableEq, Repr

/-- `unhvd_init` (exchange-state construction, success path of the
collaborators): rejects more than `UNHVD_MAX_DECODERS` decoders, allocates
one frame per decoder with `data[0] = NULL`, configures the unprojector
exactly when `depth_config` is non-NULL, zero-initializes both point
clouds, and starts with the mutex free and `keep_working = true`. -/
def unhvd_init (hw_size : Nat) (depth_config : Bool) : Option unhvd :=
  if hw_size > UNHVD_MAX_DECODERS then
    none
  else
    some { frame := List.replicate hw_size emptyFrame,
           mutexLocked := false,
           hardware_unprojector := depth_config,
           point_cloud := emptyPC,
           point_cloud_shared := emptyPC,
           keep_working := true }

/-- Result of `unhvd_get_begin`: the handle's state after the call, the
return code, and the caller-visible output buffers — `frameOut` is the
array of frame descriptors written through the `frame` argument (`none` if
the argument was NULL or nothing was written), `pcOut` likewise for the
point-cloud descriptor (the code copies `data`, `colors`, `size`, `used`). -/
structure GetBeginResult where
  handle : Option unhvd
  ret : Int
  frameOut : Option (List AVFrame)
  pcOut : Option hdu_point_cloud
deriving DecidableEq, Repr

/-- `unhvd_get_begin(u, frame, pc)`: NULL handle returns `UNHVD_ERROR`
touching nothing; otherwise lock the mutex, scan the slots for a non-NULL
first plane, and if none is live return `UNHVD_ERROR` (the C code returns
here without unlocking — the mutex stays held).  With live data, copy the
frame descriptors if `frame` was non-NULL, copy the shared point-cloud
descriptor if `pc` was non-NULL and an unprojector is configured, and
return `UNHVD_OK` with the mutex held. -/
def unhvd_get_begin (h : Option unhvd) (wantFrame wantPc : Bool) : GetBeginResult :=
  match h with
  | none => { handle := none, ret := UNHVD_ERROR, frameOut := none, pcOut := none }
  | some u =>
    -- u->mutex.lock(): the handle's state from here on has the mutex held
    let new_data := u.frame.any (fun f => f.data0.isSome)
    if new_data = false then
      { handle := some { u with mutexLocked := true }, ret := UNHVD_ERROR,
        frameOut := none, pcOut := none }
    else
      { handle := some { u with mutexLocked := true },
        ret := UNHVD_OK,
        frameOut := if wantFrame then some u.frame else none,
        pcOut := if wantPc && u.hardware_unprojector then some u.point_cloud_shared else none }

/-- `unhvd_get_end(u)`: NULL handle returns `UNHVD_ERROR`; otherwise
`av_frame_unref` every slot (resetting it, in particular `data[0] = NULL`)
and unlock the mutex, returning `UNHVD_OK`. -/
def unhvd_get_end (h : Option unhvd) : Option unhvd × Int :=
  match h with
  | none => (none, UNHVD_ERROR)
  | some u =>
    (some { u with frame := u.frame.map (fun _ => emptyFrame), mutexLocked := false },
     UNHVD_OK)

/-- `unhvd_get_frame_begin(u, frame)` = `unhvd_get_begin(u, frame, NULL)`. -/
def unhvd_get_frame_begin (h : Option unhvd) : GetBeginResult :=
  unhvd_get_begin h true false

/-- `unhvd_get_frame_end(u)` = `unhvd_get_end(u)`. -/
def unhvd_get_frame_end (h : Option unhvd) : Option unhvd × Int :=
  unhvd_get_end h

/-- `unhvd_get_point_cloud_begin(u, pc)` = `unhvd_get_begin(u, NULL, pc)`. -/
def unhvd_get_point_cloud_begin (h : Option unhvd) : GetBeginResult :=
  unhvd_get_begin h false true

/-- `unhvd_get_point_cloud_end(u)` = `unhvd_get_end(u)`. -/
def unhvd_get_point_cloud_end (h : Option unhvd) : Option unhvd × Int :=
  unhvd_get_end h

/-- The teardown actions `unhvd_close` performs on a non-NULL handle, in
order. -/
inductive CloseEv where
  | setStopFlag
  | joinThread
  | nhvdClose
  | frameFree (i : Nat)
  | hduClose
  | freePointClouds
  | deleteHandle
deriving DecidableEq, Repr

/-- `unhvd_close(u)`: on a NULL handle it returns at once, performing no
action; otherwise it stops and joins the producer thread, closes the
network decoder, frees every frame slot, closes the unprojector, frees both
point clouds and deletes the handle. -/
def unhvd_close (h : Option unhvd) : Option unhvd × List CloseEv :=
  match h with
  | none => (none, [])
  | some u =>
    (none,
     [CloseEv.setStopFlag, CloseEv.joinThread, CloseEv.nhvdClose]
       ++ (List.range u.frame.length).map CloseEv.frameFree
       ++ [CloseEv.hduClose, CloseEv.freePointClouds, CloseEv.deleteHandle])

/-- The `hdu_depth` record `unhvd_unproject_depth_frame` assembles: depth
plane and stride from the depth frame, texture plane and stride from the
optional texture frame (`NULL` / `0` when absent). -/
def mkHduDepth (depth_frame : AVFrame) (texture_frame : Option AVFrame) : hdu_depth :=
  { depthData := depth_frame.data0,
    textureData := match texture_frame with
                   | some t => t.data0
                   | none => none,
    width := depth_frame.width,
    height := depth_frame.height,
    depthLinesize := depth_frame.linesize0,
    textureLinesize := match texture_frame with
                       | some t => t.linesize0
                       | none => 0 }

/-- The grow-or-reuse step of `unhvd_unproject_depth_frame`: if the required
slot count `size` differs from `pc->size`, free both arrays and allocate
fresh ones of `size` elements (fresh allocation identities, contents the
uninitialized values `new[]` leaves), setting `size` and `used := 0`;
otherwise keep `pc` as is. -/
def growOrReuse (freshDataId freshColorsId : Nat) (uninitP : Point) (uninitC : Color)
    (size : Nat) (pc : hdu_point_cloud) : hdu_point_cloud :=
  if size ≠ pc.size then
    { dataId := freshDataId, colorsId := freshColorsId,
      data := List.replicate size uninitP,
      colors := List.replicate size uninitC,
      size := size, used := 0 }
  else pc

/-- The `hdu_unproject` call followed by the two `memset` calls that zero
the tail `[used, size)` of the point and color arrays. -/
def unprojectFill (up : UnprojFn) (dep : hdu_depth) (pc1 : hdu_point_cloud) :
    hdu_point_cloud :=
  let pc2 := up.run dep pc1
  { pc2 with
      data := memsetRange pc2.data (0, 0, 0) pc2.used (pc2.size - pc2.used),
      colors := memsetRange pc2.colors 0 pc2.used (pc2.size - pc2.used) }

/-- The body of `unhvd_unproject_depth_frame` after its two format guards,
with `size = width * height`: grow-or-reuse the working buffer, then
unproject and zero-fill the tails.  The second component records whether
the reallocation branch ran. -/
def unprojectCore (up : UnprojFn) (freshDataId freshColorsId : Nat)
    (uninitP : Point) (uninitC : Color)
    (depth_frame : AVFrame) (texture_frame : Option AVFrame)
    (pc : hdu_point_cloud) : hdu_point_cloud × Bool :=
  let size := depth_frame.width * depth_frame.height
  (unprojectFill up (mkHduDepth depth_frame texture_frame)
     (growOrReuse freshDataId freshColorsId uninitP uninitC size pc),
   decide (size ≠ pc.size))

/-- `unhvd_unproject_depth_frame(u, depth_frame, texture_frame, pc)`.
Returns `none` (`UNHVD_ERROR`) when the depth frame is not uint16
p010le/p016le data, or when a present texture with a non-NULL plane is not
RGB0/RGBA; otherwise runs `unprojectCore` (grow-or-reuse, `hdu_unproject`,
zero-fill of the tails) and returns `UNHVD_OK` with its result. -/
def unhvd_unproject_depth_frame (up : UnprojFn) (freshDataId freshColorsId : Nat)
    (uninitP : Point) (uninitC : Color)
    (depth_frame : AVFrame) (texture_frame : Option AVFrame)
    (pc : hdu_point_cloud) : Option (hdu_point_cloud × Bool) :=
  if depth_frame.linesize0 / depth_frame.width ≠ 2 ∨
      (depth_frame.format ≠ .p010le ∧ depth_frame.format ≠ .p016le) then
    none
  else if (match texture_frame with
           | some t => t.data0.isSome && t.format ≠ .rgb0 && t.format ≠ .rgba
           | none => false) then
    none
  else
    some (unprojectCore up freshDataId freshColorsId uninitP uninitC
            depth_frame texture_frame pc)

/-- The per-slot reference update of the producer's critical section
(`for(i=0;i<decoders;++i) if(frames[i]) { av_frame_unref(frame[i]);
av_frame_ref(frame[i], frames[i]); }`): a slot whose stream received no
frame this cycle is left untouched; a slot with a received frame drops its
old reference and takes the new one. -/
def updateFrames : List AVFrame → List (Option AVFrame) → List AVFrame
  | [], _ => []
  | slots, [] => slots
  | slot :: slots, none :: rs => slot :: updateFrames slots rs
  | _ :: slots, some f :: rs => f :: updateFrames slots rs

/-- The observable actions of one producer-loop body, in program order. -/
inductive Ev where
  | unproject
  | lockAcquire
  | refUpdate (i : Nat)
  | pcSwap
  | lockRelease
deriving DecidableEq, Repr

/-- Outcome of `nhvd_receive` for one loop iteration. -/
inductive RecvStatus where
  | ok
  | timeout
  | fatal
deriving DecidableEq, Repr

/-- One iteration of `unhvd_network_decoder_thread`'s `while` loop, given the
receive outcome and the received per-stream frames (`recv[i] = none` models
`frames[i] == NULL`).  Returns the state afterwards, the ordered event
trace, and whether the loop continues.  The body: on timeout, loop again;
on fatal receive error (or `keep_working` cleared), exit; otherwise, when
an unprojector is configured and the depth stream (index 0) produced a
frame, unproject into the working point cloud — on unprojection failure
exit the loop — then, under one mutex acquisition, update the per-stream
references and (when unprojection ran) swap the working and shared point
clouds, and release the mutex. -/
def unhvd_thread_iteration (up : UnprojFn) (freshDataId freshColorsId : Nat)
    (uninitP : Point) (uninitC : Color)
    (u : unhvd) (status : RecvStatus) (recv : List (Option AVFrame)) :
    unhvd × List Ev × Bool :=
  if u.keep_working = false then (u, [], false)
  else match status with
  | .fatal => (u, [], false)
  | .timeout => (u, [], true)
  | .ok =>
    match (if u.hardware_unprojector then recv.getD 0 none else none) with
    | some depthF =>
      match unhvd_unproject_depth_frame up freshDataId freshColorsId uninitP uninitC
              depthF (recv.getD 1 none) u.point_cloud with
      | none => (u, [Ev.unproject], false)
      | some (pcW, _) =>
        ({ u with
             frame := updateFrames u.frame recv,
             point_cloud := u.point_cloud_shared,
             point_cloud_shared := pcW },
         [Ev.unproject, Ev.lockAcquire]
           ++ (((List.range u.frame.length).filter
                 (fun i => (recv.getD i none).isSome)).map Ev.refUpdate)
           ++ [Ev.pcSwap, Ev.lockRelease],
         true)
    | none =>
      ({ u with frame := updateFrames u.frame recv },
       [Ev.lockAcquire]
         ++ (((List.range u.frame.length).filter
               (fun i => (recv.getD i none).isSome)).map Ev.refUpdate)
         ++ [Ev.lockRelease],
       true)

/-! ## Concrete inputs used by counterexamples and witnesses -/

/-- A decoded video frame with a non-NULL first plane (a published frame). -/
def testFrame : AVFrame :=
  { width := 2, height := 1, format := .other 7, data0 := some 1,
    data1 := none, data2 := none, linesize0 := 4, linesize1 := 0, linesize2 := 0 }

/-- A valid p010le depth frame (2×1, stride 4, non-NULL first plane). -/
def depthTestFrame : AVFrame :=
  { width := 2, height := 1, format := .p010le, data0 := some 1,
    data1 := none, data2 := none, linesize0 := 4, linesize1 := 0, linesize2 := 0 }

/-- The exchange state `unhvd_init(.., 1 decoder, NULL depth_config)` builds. -/
def initState1 : unhvd :=
  { frame := [emptyFrame], mutexLocked := false, hardware_unprojector := false,
    point_cloud := emptyPC, point_cloud_shared := emptyPC, keep_working := true }

/-- The exchange state `unhvd_init(.., 2 decoders, depth_config)` builds. -/
def initState2d : unhvd :=
  { frame := [emptyFrame, emptyFrame], mutexLocked := false, hardware_unprojector := true,
    point_cloud := emptyPC, point_cloud_shared := emptyPC, keep_working := true }

/-- The point cloud `unhvd_unproject_depth_frame nullUnproj 1 2 (5,5,5) 7
depthTestFrame none emptyPC` produces: a freshly allocated 2-slot buffer,
fully zeroed (`used = 0`). -/
def unprojOut2 : hdu_point_cloud :=
  { dataId := 1, colorsId := 2, data := [(0, 0, 0), (0, 0, 0)],
    colors := [0, 0], size := 2, used := 0 }

/-! ## Helper lemmas -/

theorem memsetRange_length (l : List α) (z : α) (s c : Nat)
    (h1 : s ≤ l.length) (h2 : s + c = l.length) :
    (memsetRange l z s c).length = l.length := by
  simp [memsetRange]
  omega

theorem memsetRange_getElem?_of_mem (l : List α) (z : α) (s c j : Nat)
    (h1 : s ≤ l.length) (hj1 : s ≤ j) (hj2 : j < s + c) :
    (memsetRange l z s c)[j]? = some z := by
  unfold memsetRange
  have hts : (l.take s).length = s := by
    simp [List.length_take]
    omega
  rw [List.getElem?_append_right (by omega : (l.take s).length ≤ j)]
  rw [hts]
  rw [List.getElem?_append_left (by simp; omega : j - s < (List.replicate c z).length)]
  exact List.getElem?_replicate_of_lt (by omega)

theorem updateFrames_length (slots : List AVFrame) (recv : List (Option AVFrame)) :
    (updateFrames slots recv).length = slots.length := by
  induction slots generalizing recv with
  | nil => cases recv <;> rfl
  | cons s ss ih =>
    cases recv with
    | nil => rfl
    | cons r rs => cases r <;> simp [updateFrames, ih]

theorem updateFrames_getElem?_of_none (slots : List AVFrame)
    (recv : List (Option AVFrame)) (i : Nat) (h : recv.getD i none = none) :
    (updateFrames slots recv)[i]? = slots[i]? := by
  induction slots generalizing recv i with
  | nil => cases recv <;> rfl
  | cons s ss ih =>
    cases recv with
    | nil => rfl
    | cons r rs =>
      cases i with
      | zero =>
        simp [List.getD] at h
        subst h
        simp [updateFrames]
      | succ i =>
        simp [List.getD] at h
        cases r with
        | none =>
          show (updateFrames (s :: ss) (none :: rs))[i + 1]? = (s :: ss)[i + 1]?
          simpa [updateFrames] using ih rs i (by simpa [List.getD] using h)
        | some f =>
          show (updateFrames (s :: ss) (some f :: rs))[i + 1]? = (s :: ss)[i + 1]?
          simpa [updateFrames] using ih rs i (by simpa [List.getD] using h)

theorem updateFrames_getElem?_of_some (slots : List AVFrame)
    (recv : List (Option AVFrame)) (i : Nat) (f : AVFrame)
    (hlen : i < slots.length) (h : recv.getD i none = some f) :
    (updateFrames slots recv)[i]? = some f := by
  induction slots generalizing recv i with
  | nil => simp at hlen
  | cons s ss ih =>
    cases recv with
    | nil => simp [List.getD] at h
    | cons r rs =>
      cases i with
      | zero =>
        simp [List.getD] at h
        subst h
        simp [updateFrames]
      | succ i =>
        have hlen' : i < ss.length := by simpa using hlen
        have h' : rs.getD i none = some f := by simpa [List.getD] using h
        cases r with
        | none =>
          show (updateFrames (s :: ss) (none :: rs))[i + 1]? = some f
          simpa [updateFrames] using ih rs i hlen' h'
        | some g =>
          show (updateFrames (s :: ss) (some g :: rs))[i + 1]? = some f
          simpa [updateFrames] using ih rs i hlen' h'

/-- A begin-retrieve call on a non-null handle signals NO_NEW_DATA
(`UNHVD_ERROR`) exactly when every decoder slot's first plane is NULL. -/
theorem beginRetErrorIff (u : unhvd) (wantFrame wantPc : Bool) :
    (unhvd_get_begin (some u) wantFrame wantPc).ret = UNHVD_ERROR ↔
      ∀ f ∈ u.frame, f.data0 = none := by
  simp only [unhvd_get_begin]
  split
  case isTrue hc =>
    constructor
    · intro _
      rw [List.any_eq_false] at hc
      intro f hf
      simpa using hc f hf
    · intro _
      rfl
  case isFalse hc =>
    rw [Bool.not_eq_false, List.any_eq_true] at hc
    obtain ⟨f, hf, hsome⟩ := hc
    constructor
    · intro hret
      simp [UNHVD_OK, UNHVD_ERROR] at hret
    · intro hall
      have := hall f hf
      simp [this] at hsome

/-- A begin-retrieve call on a non-null handle with no unprojector
configured never writes the point-cloud descriptor. -/
theorem beginPcOutNoneOfNoUnprojector (u : unhvd) (wantFrame wantPc : Bool)
    (h : u.hardware_unprojector = false) :
    (unhvd_get_begin (some u) wantFrame wantPc).pcOut = none := by
  simp only [unhvd_get_begin]
  split
  · rfl
  · simp [h]

/-- When a begin-retrieve call on a non-null handle signals NO_NEW_DATA it
writes neither output descriptor. -/
theorem beginErrorWritesNothing (u : unhvd) (wantFrame wantPc : Bool)
    (h : (unhvd_get_begin (some u) wantFrame wantPc).ret = UNHVD_ERROR) :
    (unhvd_get_begin (some u) wantFrame wantPc).frameOut = none ∧
    (unhvd_get_begin (some u) wantFrame wantPc).pcOut = none := by
  revert h
  simp only [unhvd_get_begin]
  split
  · intro _
    exact ⟨rfl, rfl⟩
  · intro hret
    simp [UNHVD_OK, UNHVD_ERROR] at hret

/-- Every slot of a freshly initialized exchange state has a NULL first
plane. -/
theorem initAllSlotsNull (n : Nat) (d : Bool) (u : unhvd)
    (h : unhvd_init n d = some u) : ∀ f ∈ u.frame, f.data0 = none := by
  unfold unhvd_init at h
  split at h
  · exact absurd h (by simp)
  · cases h
    intro f hf
    rw [List.eq_of_mem_replicate hf]
    rfl

/-! ## Claims -/

/-- C1, counterexample.  The claim says that on a state where every slot has
a NULL first plane, a begin-retrieve call returns `UNHVD_ERROR` with the
mutex released before returning.  On the state built by
`unhvd_init(1 decoder, NULL depth)` the call does return `UNHVD_ERROR`, but
the mutex of the returned state is still held (`mutexLocked = true`): the C
code's `return UNHVD_ERROR` at the `!new_data` check comes after
`u->mutex.lock()` with no intervening unlock. -/
theorem c1_counterexample :
    (unhvd_get_begin (unhvd_init 1 false) true true).ret = UNHVD_ERROR ∧
    ((unhvd_get_begin (unhvd_init 1 false) true true).handle.map
        (fun v => v.mutexLocked)) = some true := by
  decide

/-- C1, amended.  For every begin-retrieve call (`unhvd_get_begin`, and
through it the frame/point-cloud variants) on a non-null handle in a state
where every decoder frame slot has a NULL first-plane pointer, the call
returns the no-new-data signal `UNHVD_ERROR`, writes neither output
descriptor, and leaves the mutex HELD (`mutexLocked = true` in the
resulting state): a matching `unhvd_get_end` is therefore still required
after a NO_NEW_DATA result, exactly as the header demands ("begin functions
should be always followed by corresponding end calls"). -/
theorem c1_no_new_data_returns_error_with_lock_held (u : unhvd)
    (wantFrame wantPc : Bool) (h : ∀ f ∈ u.frame, f.data0 = none) :
    unhvd_get_begin (some u) wantFrame wantPc =
      { handle := some { u with mutexLocked := true }, ret := UNHVD_ERROR,
        frameOut := none, pcOut := none } := by
  have hany : u.frame.any (fun f => f.data0.isSome) = false := by
    rw [List.any_eq_false]
    intro f hf
    simp [h f hf]
  simp [unhvd_get_begin, hany]

/-- C1 witness: the amended theorem applied to the freshly initialized
one-decoder state. -/
theorem c1_witness :
    unhvd_get_begin (some initState1) true true =
      { handle := some { initState1 with mutexLocked := true }, ret := UNHVD_ERROR,
        frameOut := none, pcOut := none } :=
  c1_no_new_data_returns_error_with_lock_held initState1 true true (by decide)

/-- C2, counterexample.  The claim says that with one decoder and a NULL
`depth_config`, every `unhvd_get_point_cloud_begin` call returns
NO_NEW_DATA (`UNHVD_ERROR`) regardless of published frames.  Starting from
`unhvd_init 1 false` and letting the producer publish one frame with a
non-NULL first plane, the call returns `UNHVD_OK` (it merely skips the
point-cloud copy, leaving `pcOut` unwritten). -/
theorem c2_counterexample :
    (unhvd_get_point_cloud_begin ((unhvd_init 1 false).map
        (fun u => (unhvd_thread_iteration nullUnproj 1 2 (5, 5, 5) 7 u
                     .ok [some testFrame]).1))).ret = UNHVD_OK ∧
    (unhvd_get_point_cloud_begin ((unhvd_init 1 false).map
        (fun u => (unhvd_thread_iteration nullUnproj 1 2 (5, 5, 5) 7 u
                     .ok [some testFrame]).1))).pcOut = none := by
  decide

/-- C2, amended.  With no unprojector configured (`depth_config` NULL),
`unhvd_get_point_cloud_begin` never writes the point-cloud descriptor
(`pcOut = none`), and it returns NO_NEW_DATA (`UNHVD_ERROR`) exactly when
every decoder slot's first plane is NULL — once a frame has been published
it returns `UNHVD_OK` with the descriptor still unwritten. -/
theorem c2_point_cloud_begin_without_unprojector (u : unhvd)
    (h : u.hardware_unprojector = false) :
    (unhvd_get_point_cloud_begin (some u)).pcOut = none ∧
    ((unhvd_get_point_cloud_begin (some u)).ret = UNHVD_ERROR ↔
      ∀ f ∈ u.frame, f.data0 = none) :=
  ⟨beginPcOutNoneOfNoUnprojector u false true h, beginRetErrorIff u false true⟩

/-- C2 witness: the amended theorem applied to the freshly initialized
one-decoder, no-depth-config state. -/
theorem c2_witness :
    (unhvd_get_point_cloud_begin (some initState1)).pcOut = none ∧
    ((unhvd_get_point_cloud_begin (some initState1)).ret = UNHVD_ERROR ↔
      ∀ f ∈ initState1.frame, f.data0 = none) :=
  c2_point_cloud_begin_without_unprojector initState1 (by decide)

/-- C3.  Every slot of a state built by `unhvd_init` has a NULL first-plane
pointer, and for every state, a begin-retrieve call on a non-null handle
returns NO_NEW_DATA (`UNHVD_ERROR`) if and only if every slot's first
plane is NULL; when it does, neither a frame descriptor nor a point-cloud
descriptor is surfaced.  In particular any begin-retrieve before the first
publish returns NO_NEW_DATA with no descriptor written. -/
theorem c3_no_new_data_iff_all_slots_null (n : Nat) (d : Bool) (u0 : unhvd)
    (hinit : unhvd_init n d = some u0) (wantFrame wantPc : Bool) :
    (∀ f ∈ u0.frame, f.data0 = none) ∧
    (∀ u : unhvd,
      ((unhvd_get_begin (some u) wantFrame wantPc).ret = UNHVD_ERROR ↔
        ∀ f ∈ u.frame, f.data0 = none) ∧
      ((unhvd_get_begin (some u) wantFrame wantPc).ret = UNHVD_ERROR →
        (unhvd_get_begin (some u) wantFrame wantPc).frameOut = none ∧
        (unhvd_get_begin (some u) wantFrame wantPc).pcOut = none)) := by
  refine ⟨initAllSlotsNull n d u0 hinit, fun u => ⟨beginRetErrorIff u _ _, ?_⟩⟩
  exact beginErrorWritesNothing u _ _

/-- C3 witness: the theorem applied to `unhvd_init 1 false` and the state it
builds. -/
theorem c3_witness :
    (∀ f ∈ initState1.frame, f.data0 = none) ∧
    (∀ u : unhvd,
      ((unhvd_get_begin (some u) true false).ret = UNHVD_ERROR ↔
        ∀ f ∈ u.frame, f.data0 = none) ∧
      ((unhvd_get_begin (some u) true false).ret = UNHVD_ERROR →
        (unhvd_get_begin (some u) true false).frameOut = none ∧
        (unhvd_get_begin (some u) true false).pcOut = none)) :=
  c3_no_new_data_iff_all_slots_null 1 false initState1 (by decide) true false

/-- C9.  Every public operation on a NULL handle is signalled and touches no
state: `unhvd_get_begin`, `unhvd_get_end` and their frame/point-cloud
variants return `UNHVD_ERROR` writing nothing, and `unhvd_close` on a NULL
handle performs no action; closing an already-closed handle likewise
performs no action (idempotence). -/
theorem c9_null_handle_is_safe (wantFrame wantPc : Bool) (h : Option unhvd) :
    unhvd_get_begin none wantFrame wantPc =
      { handle := none, ret := UNHVD_ERROR, frameOut := none, pcOut := none } ∧
    unhvd_get_end none = (none, UNHVD_ERROR) ∧
    unhvd_get_frame_begin none =
      { handle := none, ret := UNHVD_ERROR, frameOut := none, pcOut := none } ∧
    unhvd_get_frame_end none = (none, UNHVD_ERROR) ∧
    unhvd_get_point_cloud_begin none =
      { handle := none, ret := UNHVD_ERROR, frameOut := none, pcOut := none } ∧
    unhvd_get_point_cloud_end none = (none, UNHVD_ERROR) ∧
    unhvd_close none = (none, []) ∧
    unhvd_close (unhvd_close h).1 = (none, []) := by
  refine ⟨rfl, rfl, rfl, rfl, rfl, rfl, rfl, ?_⟩
  cases h <;> rfl

/-- C10.  `unhvd_get_end` on a non-null handle succeeds, unreferences every
decoder slot (every first-plane pointer becomes NULL) and releases the
mutex; consequently every subsequent begin-retrieve call returns
NO_NEW_DATA until the producer publishes again — a published set of frames
is observable at most once. -/
theorem c10_get_end_unrefs_all_slots (u : unhvd) (wantFrame wantPc : Bool) :
    (unhvd_get_end (some u)).2 = UNHVD_OK ∧
    (unhvd_get_end (some u)).1 =
      some { u with frame := u.frame.map (fun _ => emptyFrame), mutexLocked := false } ∧
    (∀ v ∈ (unhvd_get_end (some u)).1, ∀ f ∈ v.frame, f.data0 = none) ∧
    (unhvd_get_begin (unhvd_get_end (some u)).1 wantFrame wantPc).ret = UNHVD_ERROR := by
  refine ⟨rfl, rfl, ?_, ?_⟩
  · intro v hv f hf
    simp only [unhvd_get_end, Option.mem_def, Option.some.injEq] at hv
    subst hv
    simp only [List.mem_map] at hf
    obtain ⟨g, _, hfg⟩ := hf
    rw [← hfg]
    rfl
  · have hall : ∀ f ∈ (u.frame.map (fun _ => emptyFrame)), f.data0 = none := by
      intro f hf
      simp only [List.mem_map] at hf
      obtain ⟨g, _, hfg⟩ := hf
      rw [← hfg]
      rfl
    rw [show (unhvd_get_end (some u)).1 =
          some { u with frame := u.frame.map (fun _ => emptyFrame),
                        mutexLocked := false } from rfl]
    exact (beginRetErrorIff _ wantFrame wantPc).mpr hall

/-- `unprojectFill` preserves the allocation identities and the `size`
field (the collaborator writes in place and `memset` only writes
elements). -/
theorem unprojectFill_ids_size (up : UnprojFn) (dep : hdu_depth)
    (pc1 : hdu_point_cloud) :
    (unprojectFill up dep pc1).dataId = pc1.dataId ∧
    (unprojectFill up dep pc1).colorsId = pc1.colorsId ∧
    (unprojectFill up dep pc1).size = pc1.size := by
  refine ⟨?_, ?_, ?_⟩ <;>
    simp [unprojectFill, up.run_dataId, up.run_colorsId, up.run_size]

/-- After `unprojectFill` on a buffer whose arrays have allocated length
`size`: `used ≤ size`, both arrays still have allocated length `size`, and
every slot of the tails `[used, size)` is the zero point / zero color. -/
theorem unprojectFill_invariants (up : UnprojFn) (dep : hdu_depth)
    (pc1 : hdu_point_cloud)
    (h1 : pc1.data.length = pc1.size) (h2 : pc1.colors.length = pc1.size) :
    (unprojectFill up dep pc1).used ≤ (unprojectFill up dep pc1).size ∧
    (unprojectFill up dep pc1).data.length = (unprojectFill up dep pc1).size ∧
    (unprojectFill up dep pc1).colors.length = (unprojectFill up dep pc1).size ∧
    ∀ j, (unprojectFill up dep pc1).used ≤ j → j < (unprojectFill up dep pc1).size →
      (unprojectFill up dep pc1).data[j]? = some ((0 : Int), (0 : Int), (0 : Int)) ∧
      (unprojectFill up dep pc1).colors[j]? = some 0 := by
  have hs := up.run_size dep pc1
  have hu := up.run_used_le dep pc1
  have hdl := up.run_data_len dep pc1
  have hcl := up.run_colors_len dep pc1
  have hused : (unprojectFill up dep pc1).used = (up.run dep pc1).used := rfl
  have hsize : (unprojectFill up dep pc1).size = (up.run dep pc1).size := rfl
  have hdata : (unprojectFill up dep pc1).data =
      memsetRange (up.run dep pc1).data (0, 0, 0) (up.run dep pc1).used
        ((up.run dep pc1).size - (up.run dep pc1).used) := rfl
  have hcolors : (unprojectFill up dep pc1).colors =
      memsetRange (up.run dep pc1).colors 0 (up.run dep pc1).used
        ((up.run dep pc1).size - (up.run dep pc1).used) := rfl
  refine ⟨?_, ?_, ?_, ?_⟩
  · rw [hused, hsize]
    omega
  · rw [hdata, hsize]
    rw [memsetRange_length _ _ _ _ (by omega) (by omega)]
    omega
  · rw [hcolors, hsize]
    rw [memsetRange_length _ _ _ _ (by omega) (by omega)]
    omega
  · intro j hj1 hj2
    rw [hused] at hj1
    rw [hsize] at hj2
    rw [hdata, hcolors]
    exact ⟨memsetRange_getElem?_of_mem _ _ _ _ _ (by omega) hj1 (by omega),
           memsetRange_getElem?_of_mem _ _ _ _ _ (by omega) hj1 (by omega)⟩

/-- The buffer `growOrReuse` hands to the collaborator always has arrays of
allocated length equal to its `size` field (given the incoming buffer
satisfied that invariant). -/
theorem growOrReuse_lengths (a b : Nat) (p : Point) (c : Color) (size : Nat)
    (pc : hdu_point_cloud)
    (hd : pc.data.length = pc.size) (hc : pc.colors.length = pc.size) :
    (growOrReuse a b p c size pc).data.length = (growOrReuse a b p c size pc).size ∧
    (growOrReuse a b p c size pc).colors.length = (growOrReuse a b p c size pc).size := by
  unfold growOrReuse
  split <;> simp [hd, hc]

/-- On success, `unhvd_unproject_depth_frame` returns exactly the result of
`unprojectCore`. -/
theorem unproject_some_elim (up : UnprojFn) (a b : Nat) (p : Point) (c : Color)
    (df : AVFrame) (tf : Option AVFrame) (pc : hdu_point_cloud)
    (pc' : hdu_point_cloud) (rb : Bool)
    (h : unhvd_unproject_depth_frame up a b p c df tf pc = some (pc', rb)) :
    pc' = unprojectFill up (mkHduDepth df tf)
            (growOrReuse a b p c (df.width * df.height) pc) ∧
    rb = decide (df.width * df.height ≠ pc.size) := by
  unfold unhvd_unproject_depth_frame at h
  split at h
  · exact Option.noConfusion h
  · split at h
    · exact Option.noConfusion h
    · rw [Option.some_inj] at h
      unfold unprojectCore at h
      refine ⟨?_, ?_⟩
      · exact (congrArg Prod.fst h.symm)
      · exact (congrArg Prod.snd h.symm)

/-- C4.  After every successful unprojection step on a working buffer whose
arrays have allocated length `size` (the invariant the code maintains from
the zero-initialized buffer onwards), the resulting point cloud satisfies
`used ≤ size`, its point and color arrays have equal allocated size
(both equal the `size` field), and every slot in the tail range
`[used, size)` of both arrays is zero-filled. -/
theorem c4_unprojection_tail_zeroed (up : UnprojFn) (a b : Nat) (p : Point)
    (c : Color) (df : AVFrame) (tf : Option AVFrame) (pc pc' : hdu_point_cloud)
    (rb : Bool)
    (hd : pc.data.length = pc.size) (hc : pc.colors.length = pc.size)
    (h : unhvd_unproject_depth_frame up a b p c df tf pc = some (pc', rb)) :
    pc'.used ≤ pc'.size ∧
    pc'.data.length = pc'.size ∧ pc'.colors.length = pc'.size ∧
    ∀ j, pc'.used ≤ j → j < pc'.size →
      pc'.data[j]? = some ((0 : Int), (0 : Int), (0 : Int)) ∧
      pc'.colors[j]? = some 0 := by
  obtain ⟨hpc', -⟩ := unproject_some_elim up a b p c df tf pc pc' rb h
  subst hpc'
  obtain ⟨hl1, hl2⟩ :=
    growOrReuse_lengths a b p c (df.width * df.height) pc hd hc
  exact unprojectFill_invariants up _ _ hl1 hl2

/-- C4 witness: the theorem applied to a concrete 2×1 p010le depth frame on
the zero-initialized working buffer. -/
theorem c4_witness :
    unprojOut2.used ≤ unprojOut2.size ∧
    unprojOut2.data.length = unprojOut2.size ∧
    unprojOut2.colors.length = unprojOut2.size ∧
    ∀ j, unprojOut2.used ≤ j → j < unprojOut2.size →
      unprojOut2.data[j]? = some ((0 : Int), (0 : Int), (0 : Int)) ∧
      unprojOut2.colors[j]? = some 0 :=
  c4_unprojection_tail_zeroed nullUnproj 1 2 (5, 5, 5) 7 depthTestFrame none
    emptyPC unprojOut2 true (by decide) (by decide) (by decide)

/-- C5.  In every successful unprojection step (on a working buffer whose
arrays have allocated length `size`, with the fresh allocations distinct
from the old ones as `new[]` guarantees while the old array is live), the
point and color arrays are freed and reallocated if and only if the
required slot count `width * height` differs from the buffer's current
`size`; when they are equal, the existing storage is reused in place — same
allocation identities, same `size`, same allocated lengths. -/
theorem c5_realloc_iff_size_differs (up : UnprojFn) (a b : Nat) (p : Point)
    (c : Color) (df : AVFrame) (tf : Option AVFrame) (pc pc' : hdu_point_cloud)
    (rb : Bool)
    (hd : pc.data.length = pc.size) (hc : pc.colors.length = pc.size)
    (hf1 : a ≠ pc.dataId) (hf2 : b ≠ pc.colorsId)
    (h : unhvd_unproject_depth_frame up a b p c df tf pc = some (pc', rb)) :
    (rb = true ↔ df.width * df.height ≠ pc.size) ∧
    (rb = true →
      pc'.dataId = a ∧ pc'.colorsId = b ∧
      pc'.dataId ≠ pc.dataId ∧ pc'.colorsId ≠ pc.colorsId ∧
      pc'.size = df.width * df.height) ∧
    (rb = false →
      pc'.dataId = pc.dataId ∧ pc'.colorsId = pc.colorsId ∧
      pc'.size = pc.size ∧
      pc'.data.length = pc.data.length ∧ pc'.colors.length = pc.colors.length) := by
  obtain ⟨hpc', hrb⟩ := unproject_some_elim up a b p c df tf pc pc' rb h
  obtain ⟨hid1, hid2, hid3⟩ :=
    unprojectFill_ids_size up (mkHduDepth df tf)
      (growOrReuse a b p c (df.width * df.height) pc)
  rw [← hpc'] at hid1 hid2 hid3
  refine ⟨?_, ?_, ?_⟩
  · rw [hrb]
    exact decide_eq_true_iff
  · intro hrt
    have hne : df.width * df.height ≠ pc.size := by
      rw [hrb] at hrt
      exact of_decide_eq_true hrt
    have hg : growOrReuse a b p c (df.width * df.height) pc =
        { dataId := a, colorsId := b,
          data := List.replicate (df.width * df.height) p,
          colors := List.replicate (df.width * df.height) c,
          size := df.width * df.height, used := 0 } := by
      unfold growOrReuse
      rw [if_pos hne]
    rw [hg] at hid1 hid2 hid3
    refine ⟨hid1, hid2, ?_, ?_, hid3⟩
    · rw [hid1]
      exact hf1
    · rw [hid2]
      exact hf2
  · intro hrf
    have heq : df.width * df.height = pc.size := by
      rw [hrb] at hrf
      have := of_decide_eq_false hrf
      omega
    have hg : growOrReuse a b p c (df.width * df.height) pc = pc := by
      unfold growOrReuse
      rw [if_neg (by omega)]
    rw [hg] at hid1 hid2 hid3
    obtain ⟨hl1, hl2⟩ :=
      growOrReuse_lengths a b p c (df.width * df.height) pc hd hc
    obtain ⟨-, hinv2, hinv3, -⟩ :=
      unprojectFill_invariants up (mkHduDepth df tf)
        (growOrReuse a b p c (df.width * df.height) pc) hl1 hl2
    rw [← hpc'] at hinv2 hinv3
    refine ⟨hid1, hid2, hid3, ?_, ?_⟩
    · rw [hinv2, hid3, hd]
    · rw [hinv3, hid3, hc]

/-- C5 witness: the theorem applied to a concrete 2×1 p010le depth frame on
the zero-initialized working buffer (required count 2 ≠ current size 0, so
the step reallocates to fresh identities). -/
theorem c5_witness :
    (true = true ↔ depthTestFrame.width * depthTestFrame.height ≠ emptyPC.size) ∧
    (true = true →
      unprojOut2.dataId = 1 ∧ unprojOut2.colorsId = 2 ∧
      unprojOut2.dataId ≠ emptyPC.dataId ∧ unprojOut2.colorsId ≠ emptyPC.colorsId ∧
      unprojOut2.size = depthTestFrame.width * depthTestFrame.height) ∧
    (true = false →
      unprojOut2.dataId = emptyPC.dataId ∧ unprojOut2.colorsId = emptyPC.colorsId ∧
      unprojOut2.size = emptyPC.size ∧
      unprojOut2.data.length = emptyPC.data.length ∧
      unprojOut2.colors.length = emptyPC.colors.length) :=
  c5_realloc_iff_size_differs nullUnproj 1 2 (5, 5, 5) 7 depthTestFrame none
    emptyPC unprojOut2 true (by decide) (by decide) (by decide) (by decide)
    (by decide)

/-- Reduction of one producer iteration when frames arrived, an unprojector
is configured, the depth stream produced a frame, and unprojection
succeeded: the slots are updated, the working and shared point clouds are
swapped (the shared one now holding the freshly unprojected cloud), and the
trace is unproject, lock, the per-stream reference updates, the swap,
unlock. -/
theorem iterationPublishWithUnproj (up : UnprojFn) (a b : Nat) (p : Point)
    (c : Color) (u : unhvd) (recv : List (Option AVFrame)) (depthF : AVFrame)
    (pcW : hdu_point_cloud) (rb : Bool)
    (h1 : u.keep_working = true)
    (h2 : u.hardware_unprojector = true)
    (h3 : recv.getD 0 none = some depthF)
    (h4 : unhvd_unproject_depth_frame up a b p c depthF (recv.getD 1 none)
            u.point_cloud = some (pcW, rb)) :
    unhvd_thread_iteration up a b p c u .ok recv =
      ({ u with frame := updateFrames u.frame recv,
                point_cloud := u.point_cloud_shared,
                point_cloud_shared := pcW },
       [Ev.unproject, Ev.lockAcquire]
         ++ (((List.range u.frame.length).filter
               (fun i => (recv.getD i none).isSome)).map Ev.refUpdate)
         ++ [Ev.pcSwap, Ev.lockRelease],
       true) := by
  have h3' : recv[0]?.getD none = some depthF := by simpa [List.getD] using h3
  have h4' : unhvd_unproject_depth_frame up a b p c depthF (recv[1]?.getD none)
      u.point_cloud = some (pcW, rb) := by simpa [List.getD] using h4
  unfold unhvd_thread_iteration
  simp [h1, h2, h3', h4']

/-- Reduction of one producer iteration when frames arrived but no
unprojection runs (no unprojector configured, or no depth frame this
cycle): only the slots are updated; the trace is lock, the per-stream
reference updates, unlock. -/
theorem iterationPublishNoUnproj (up : UnprojFn) (a b : Nat) (p : Point)
    (c : Color) (u : unhvd) (recv : List (Option AVFrame))
    (h1 : u.keep_working = true)
    (hg : (if u.hardware_unprojector then recv.getD 0 none else none) = none) :
    unhvd_thread_iteration up a b p c u .ok recv =
      ({ u with frame := updateFrames u.frame recv },
       [Ev.lockAcquire]
         ++ (((List.range u.frame.length).filter
               (fun i => (recv.getD i none).isSome)).map Ev.refUpdate)
         ++ [Ev.lockRelease],
       true) := by
  have hg' : (if u.hardware_unprojector = true then recv[0]?.getD none else none) =
      none := by simpa [List.getD] using hg
  unfold unhvd_thread_iteration
  simp only [h1]
  simp [hg']

/-- Reduction of one producer iteration when unprojection runs and fails:
the loop breaks before ever touching the lock — the state is unchanged and
the trace holds the attempted unprojection only. -/
theorem iterationUnprojFailed (up : UnprojFn) (a b : Nat) (p : Point)
    (c : Color) (u : unhvd) (recv : List (Option AVFrame)) (depthF : AVFrame)
    (h1 : u.keep_working = true)
    (h2 : u.hardware_unprojector = true)
    (h3 : recv.getD 0 none = some depthF)
    (h4 : unhvd_unproject_depth_frame up a b p c depthF (recv.getD 1 none)
            u.point_cloud = none) :
    unhvd_thread_iteration up a b p c u .ok recv = (u, [Ev.unproject], false) := by
  have h3' : recv[0]?.getD none = some depthF := by simpa [List.getD] using h3
  have h4' : unhvd_unproject_depth_frame up a b p c depthF (recv[1]?.getD none)
      u.point_cloud = none := by simpa [List.getD] using h4
  unfold unhvd_thread_iteration
  simp [h1, h2, h3', h4']

/-- Membership of a reference-update event in the per-stream update trace:
stream `i` is updated exactly when `i` indexes a configured slot and its
stream received a frame this cycle. -/
theorem refUpdate_mem_iff (n i : Nat) (recv : List (Option AVFrame)) :
    Ev.refUpdate i ∈ ((List.range n).filter
        (fun k => (recv.getD k none).isSome)).map Ev.refUpdate ↔
      i < n ∧ (recv.getD i none).isSome := by
  simp [List.mem_map, List.mem_filter, List.mem_range]

/-- C6.  Point-cloud publication exchanges the working and shared
descriptors under the lock rather than copying bulk data: after a
publishing iteration, the published (shared) descriptor equals the
pre-publish working descriptor (the freshly unprojected cloud `pcW`,
pointer identities, size, used and contents unchanged), and the working
descriptor equals the pre-publish published descriptor.  No point or color
element is moved: the record equalities carry the allocation identities and
array contents across unchanged. -/
theorem c6_publish_swaps_descriptors (up : UnprojFn) (a b : Nat) (p : Point)
    (c : Color) (u : unhvd) (recv : List (Option AVFrame)) (depthF : AVFrame)
    (pcW : hdu_point_cloud) (rb : Bool)
    (h1 : u.keep_working = true)
    (h2 : u.hardware_unprojector = true)
    (h3 : recv.getD 0 none = some depthF)
    (h4 : unhvd_unproject_depth_frame up a b p c depthF (recv.getD 1 none)
            u.point_cloud = some (pcW, rb)) :
    (unhvd_thread_iteration up a b p c u .ok recv).1.point_cloud_shared = pcW ∧
    (unhvd_thread_iteration up a b p c u .ok recv).1.point_cloud =
      u.point_cloud_shared := by
  rw [iterationPublishWithUnproj up a b p c u recv depthF pcW rb h1 h2 h3 h4]
  exact ⟨rfl, rfl⟩

/-- C6 witness: a publishing iteration on the two-decoder depth-configured
state with a concrete 2×1 p010le depth frame. -/
theorem c6_witness :
    (unhvd_thread_iteration nullUnproj 1 2 (5, 5, 5) 7 initState2d .ok
        [some depthTestFrame, none]).1.point_cloud_shared = unprojOut2 ∧
    (unhvd_thread_iteration nullUnproj 1 2 (5, 5, 5) 7 initState2d .ok
        [some depthTestFrame, none]).1.point_cloud =
      initState2d.point_cloud_shared :=
  c6_publish_swaps_descriptors nullUnproj 1 2 (5, 5, 5) 7 initState2d
    [some depthTestFrame, none] depthTestFrame unprojOut2 true
    (by decide) (by decide) (by decide) (by decide)

/-- C7.  In every publishing producer iteration, a stream whose received
frame is absent (`NULL`) keeps its exchange slot unchanged; a stream that
produced a new frame has its slot's old reference dropped and replaced by
the new frame; and a reference-update event is traced exactly for the
streams that produced a frame. -/
theorem c7_absent_streams_untouched (up : UnprojFn) (a b : Nat) (p : Point)
    (c : Color) (u : unhvd) (recv : List (Option AVFrame))
    (h1 : u.keep_working = true)
    (h2 : (unhvd_thread_iteration up a b p c u .ok recv).2.2 = true) :
    (∀ i, recv.getD i none = none →
      (unhvd_thread_iteration up a b p c u .ok recv).1.frame[i]? = u.frame[i]?) ∧
    (∀ i f, i < u.frame.length → recv.getD i none = some f →
      (unhvd_thread_iteration up a b p c u .ok recv).1.frame[i]? = some f) ∧
    (∀ i, Ev.refUpdate i ∈ (unhvd_thread_iteration up a b p c u .ok recv).2.1 ↔
      i < u.frame.length ∧ (recv.getD i none).isSome) := by
  cases hg : (if u.hardware_unprojector then recv.getD 0 none else none) with
  | none =>
    rw [iterationPublishNoUnproj up a b p c u recv h1 hg]
    refine ⟨?_, ?_, ?_⟩
    · intro i hi
      exact updateFrames_getElem?_of_none u.frame recv i hi
    · intro i f hlen hi
      exact updateFrames_getElem?_of_some u.frame recv i f hlen hi
    · intro i
      simp [refUpdate_mem_iff, List.getD]
  | some depthF =>
    have hh : u.hardware_unprojector = true := by
      by_contra hcon
      rw [Bool.not_eq_true] at hcon
      simp [hcon] at hg
    have h3 : recv.getD 0 none = some depthF := by
      rw [hh] at hg
      simpa using hg
    cases hres : unhvd_unproject_depth_frame up a b p c depthF (recv.getD 1 none)
        u.point_cloud with
    | none =>
      rw [iterationUnprojFailed up a b p c u recv depthF h1 hh h3 hres] at h2
      simp at h2
    | some pr =>
      obtain ⟨pcW, rb⟩ := pr
      rw [iterationPublishWithUnproj up a b p c u recv depthF pcW rb h1 hh h3 hres]
      refine ⟨?_, ?_, ?_⟩
      · intro i hi
        exact updateFrames_getElem?_of_none u.frame recv i hi
      · intro i f hlen hi
        exact updateFrames_getElem?_of_some u.frame recv i f hlen hi
      · intro i
        simp [refUpdate_mem_iff, List.getD]

/-- C7 witness: the theorem applied to the two-decoder state where the depth
stream produced a frame and the texture stream did not. -/
theorem c7_witness :
    (∀ i, ([some depthTestFrame, none] : List (Option AVFrame)).getD i none = none →
      (unhvd_thread_iteration nullUnproj 1 2 (5, 5, 5) 7 initState2d .ok
          [some depthTestFrame, none]).1.frame[i]? = initState2d.frame[i]?) ∧
    (∀ i f, i < initState2d.frame.length →
      ([some depthTestFrame, none] : List (Option AVFrame)).getD i none = some f →
      (unhvd_thread_iteration nullUnproj 1 2 (5, 5, 5) 7 initState2d .ok
          [some depthTestFrame, none]).1.frame[i]? = some f) ∧
    (∀ i, Ev.refUpdate i ∈ (unhvd_thread_iteration nullUnproj 1 2 (5, 5, 5) 7
          initState2d .ok [some depthTestFrame, none]).2.1 ↔
      i < initState2d.frame.length ∧
        (([some depthTestFrame, none] : List (Option AVFrame)).getD i none).isSome) :=
  c7_absent_streams_untouched nullUnproj 1 2 (5, 5, 5) 7 initState2d
    [some depthTestFrame, none] (by decide) (by decide)

/-- C8.  In every producer iteration that publishes (reaches the critical
section), the trace decomposes as unprojection work, then the single lock
acquisition, then the in-lock events, then the release: everything before
the lock acquisition is unprojection, and everything inside the critical
section is a per-stream reference update or the point-cloud descriptor
swap — unprojection never happens while the lock is held. -/
theorem c8_unprojection_outside_lock (up : UnprojFn) (a b : Nat) (p : Point)
    (c : Color) (u : unhvd) (recv : List (Option AVFrame))
    (h1 : u.keep_working = true)
    (h2 : (unhvd_thread_iteration up a b p c u .ok recv).2.2 = true) :
    ∃ pre mid,
      (unhvd_thread_iteration up a b p c u .ok recv).2.1 =
        pre ++ [Ev.lockAcquire] ++ mid ++ [Ev.lockRelease] ∧
      (∀ e ∈ pre, e = Ev.unproject) ∧
      (∀ e ∈ mid, (∃ i, e = Ev.refUpdate i) ∨ e = Ev.pcSwap) := by
  cases hg : (if u.hardware_unprojector then recv.getD 0 none else none) with
  | none =>
    rw [iterationPublishNoUnproj up a b p c u recv h1 hg]
    refine ⟨[], ((List.range u.frame.length).filter
        (fun i => (recv.getD i none).isSome)).map Ev.refUpdate, by simp, ?_, ?_⟩
    · intro e he
      simp at he
    · intro e he
      simp only [List.mem_map] at he
      obtain ⟨i, -, hei⟩ := he
      exact Or.inl ⟨i, hei.symm⟩
  | some depthF =>
    have hh : u.hardware_unprojector = true := by
      by_contra hcon
      rw [Bool.not_eq_true] at hcon
      simp [hcon] at hg
    have h3 : recv.getD 0 none = some depthF := by
      rw [hh] at hg
      simpa using hg
    cases hres : unhvd_unproject_depth_frame up a b p c depthF (recv.getD 1 none)
        u.point_cloud with
    | none =>
      rw [iterationUnprojFailed up a b p c u recv depthF h1 hh h3 hres] at h2
      simp at h2
    | some pr =>
      obtain ⟨pcW, rb⟩ := pr
      rw [iterationPublishWithUnproj up a b p c u recv depthF pcW rb h1 hh h3 hres]
      refine ⟨[Ev.unproject], (((List.range u.frame.length).filter
          (fun i => (recv.getD i none).isSome)).map Ev.refUpdate) ++ [Ev.pcSwap],
        by simp, ?_, ?_⟩
      · intro e he
        simpa using he
      · intro e he
        rw [List.mem_append] at he
        cases he with
        | inl hx =>
          simp only [List.mem_map] at hx
          obtain ⟨i, -, hei⟩ := hx
          exact Or.inl ⟨i, hei.symm⟩
        | inr hx =>
          simp at hx
          exact Or.inr hx

/-- C8 witness: the theorem applied to the two-decoder publishing iteration
with a concrete depth frame. -/
theorem c8_witness :
    ∃ pre mid,
      (unhvd_thread_iteration nullUnproj 1 2 (5, 5, 5) 7 initState2d .ok
          [some depthTestFrame, none]).2.1 =
        pre ++ [Ev.lockAcquire] ++ mid ++ [Ev.lockRelease] ∧
      (∀ e ∈ pre, e = Ev.unproject) ∧
      (∀ e ∈ mid, (∃ i, e = Ev.refUpdate i) ∨ e = Ev.pcSwap) :=
  c8_unprojection_outside_lock nullUnproj 1 2 (5, 5, 5) 7 initState2d
    [some depthTestFrame, none] (by decide) (by decide)

end Unhvd
